import Mathlib

/-!
Verification of the qutebrowser key-sequence matching engine specification.

The repository ships the tests of `BaseKeyParser`
(`src/qutebrowser/test/keyinput/test_basekeyparser.py`) and the completion
models (`src/qutebrowser/models/settingcompletion.py`).  The implementation
file `qutebrowser/keyinput/basekeyparser.py` is not part of the source tree,
so the parser is modelled from the specification (spec.md sections 3-7) and
checked against the behaviour the tests pin down.  The completion model is
embedded directly from `settingcompletion.py`.
-/

namespace KeyParser

/-- Modelled from the spec: the dispatch kind passed to the `execute`
callback, `{special, chain}` (spec section 6). -/
inductive DispatchType where
  | special : DispatchType
  | chain : DispatchType
deriving DecidableEq, Repr

/-- Modelled from the spec: one invocation of the dispatch callback
`execute(command, kind, count)` (spec section 6). -/
structure Dispatch where
  command : String
  kind : DispatchType
  count : Option Nat
deriving DecidableEq, Repr

/-- Modelled from the spec: a raw key spec, a set of modifier tokens plus a
key token (spec section 4.1 contract `normalize(raw: modifier-set +
key-token)`). -/
structure KeySpec where
  modifiers : List String
  key : String
deriving DecidableEq, Repr

/-- Modelled from the spec: an input key-press event with modifier flags and
a possibly-empty printable text payload (spec section 6). -/
structure KeyEvent where
  modifiers : List String
  key : String
  text : String
deriving DecidableEq, Repr

/-- Modelled from the spec: the armed state of the AmbiguityTimer - a
single-shot interval together with the remainder/count snapshot it is timing
out on (spec sections 3 and 4.5). -/
structure TimerState where
  interval : Nat
  singleShot : Bool
  remainder : String
  count : Option Nat
deriving DecidableEq, Repr

/-- Modelled from the spec: the mutable parser state - accumulated
`keystring`, the two binding tables, the loaded section, the armed timer,
the configured timeout and the capability flags (spec section 3). -/
structure ParserState where
  keystring : String
  bindings : List (String × String)
  special_bindings : List (String × String)
  sect : Option String
  timer : Option TimerState
  timeout : Option Nat
  supports_count : Bool
  supports_chains : Bool
deriving DecidableEq, Repr

/-- Modelled from the spec: the configuration source, a map from section
names to raw binding entries plus the timeout setting (spec section 6). -/
structure ConfigSource where
  sections : List (String × List (KeySpec × String))
  timeout : Option Nat
deriving DecidableEq, Repr

/-- Modelled from the spec: the configuration error raised by `read_config`
(spec sections 4.6 and 7). -/
inductive ConfigError where
  | noSection : ConfigError
  | unknownSection : ConfigError
deriving DecidableEq, Repr

/-- Modelled from the spec: a freshly constructed parser with the given
capability flags - empty keystring, empty tables, no section, no timer. -/
def newParser (supports_count supports_chains : Bool) : ParserState :=
  ⟨"", [], [], none, none, none, supports_count, supports_chains⟩

/-- Modelled from the spec: canonicalization of a single modifier name -
`Control→Ctrl`, `Windows→Meta`, `Mod1→Alt`, `Mod4→Meta`, all other modifier
names pass through unchanged (spec section 4.1). -/
def normalizeMod (m : String) : String :=
  if m = "Control" then "Ctrl"
  else if m = "Windows" then "Meta"
  else if m = "Mod1" then "Alt"
  else if m = "Mod4" then "Meta"
  else m

/-- Modelled from the spec: the key token passes through unchanged except
that single-character alphabetic tokens are upper-cased when at least one
modifier is present (spec section 4.1). -/
def normalizeKeyToken (hasMod : Bool) (key : String) : String :=
  match hasMod, key.toList with
  | true, [c] => if c.isAlpha then String.mk [c.toUpper] else key
  | _, _ => key

/-- Modelled from the spec: `_normalize_keystr` - modifier tokens are
canonicalized and joined with `+`, followed by the key token (spec sections
3 and 4.1). -/
def normalize_keystr (ks : KeySpec) : String :=
  String.intercalate "+"
    (ks.modifiers.map normalizeMod ++ [normalizeKeyToken (!ks.modifiers.isEmpty) ks.key])

/-- Modelled from the spec: scan the longest leading run of ASCII decimal
digits of a character list, returning the run and the untouched suffix
(spec section 4.2). -/
def takeDigits : List Char → List Char × List Char
  | [] => ([], [])
  | c :: cs =>
    if c.isDigit then (c :: (takeDigits cs).1, (takeDigits cs).2)
    else ([], c :: cs)

/-- Modelled from the spec: parse a digit run as a non-negative integer. -/
def digitsToNat (ds : List Char) : Nat :=
  ds.foldl (fun acc c => 10 * acc + (c.toNat - 48)) 0

/-- Modelled from the spec: `_split_count` - with count support, split the
longest leading ASCII digit run off the keystring as the count; otherwise
return `(None, keystring)` unchanged (spec section 4.2). -/
def split_count (supports_count : Bool) (keystring : String) : Option Nat × String :=
  if supports_count then
    match takeDigits keystring.toList with
    | ([], _) => (none, keystring)
    | (ds, rest) => (some (digitsToNat ds), String.mk rest)
  else (none, keystring)

/-- Modelled from the spec: string prefix test used by the chain lookup
(exact string/prefix comparison over the literal text, spec section 4.4). -/
def strPre (a b : String) : Bool :=
  a.toList.isPrefixOf b.toList

/-- Modelled from the spec: `read_config` - fails if no section is supplied
and none was previously loaded, or if the named section is unknown; on
success replaces both binding tables from the section's entries, classifying
a binding as special iff its normalized form contains at least one modifier
token (spec sections 4.3 and 4.6). -/
def read_config (cfg : ConfigSource) (s : ParserState) (sectionName : Option String) :
    Except ConfigError ParserState :=
  match sectionName.orElse (fun _ => s.sect) with
  | none => .error .noSection
  | some name =>
    match cfg.sections.lookup name with
    | none => .error .unknownSection
    | some entries =>
      let specials := entries.filterMap
        (fun e => if e.1.modifiers.isEmpty then none
                  else some (normalize_keystr e.1, e.2))
      let chains := entries.filterMap
        (fun e => if e.1.modifiers.isEmpty then some (e.1.key, e.2) else none)
      if s.sect = some name then
        .ok { s with bindings := chains, special_bindings := specials,
                     timeout := cfg.timeout }
      else
        .ok { s with bindings := chains, special_bindings := specials,
                     sect := some name, timeout := cfg.timeout,
                     keystring := "", timer := none }

/-- Modelled from the spec: the chain path of the state machine - append the
event text, re-derive `(count, remainder)`, and decide between unique exact
match (dispatch), ambiguous match (arm the timer), partial prefix
(accumulate) and no match (abandon) (spec section 4.4 step 2). -/
def handleChain (s : ParserState) (ks : String) : ParserState × List Dispatch :=
  match s.bindings.lookup (split_count s.supports_count ks).2 with
  | some cmd =>
    if s.bindings.any
        (fun b => strPre (split_count s.supports_count ks).2 b.1 &&
          (split_count s.supports_count ks).2 != b.1) then
      match s.timeout with
      | some t =>
        ({ s with keystring := ks,
                  timer := some ⟨t, true, (split_count s.supports_count ks).2,
                                 (split_count s.supports_count ks).1⟩ }, [])
      | none => ({ s with keystring := ks, timer := none }, [])
    else
      ({ s with keystring := "", timer := none },
        [⟨cmd, .chain, (split_count s.supports_count ks).1⟩])
  | none =>
    if s.bindings.any (fun b => strPre (split_count s.supports_count ks).2 b.1) then
      ({ s with keystring := ks, timer := none }, [])
    else
      ({ s with keystring := "", timer := none }, [])

/-- Modelled from the spec: `handle` - each key-press event is normalized
and checked against the special table (dispatching immediately and resetting
on a match); a non-matching event is discarded without state change when
chains are unsupported or it carries no printable text, and otherwise its
text is folded into the chain path after cancelling a still-pending timer
(spec sections 4.4 and 4.5). -/
def handle (s : ParserState) (e : KeyEvent) : ParserState × List Dispatch :=
  match s.special_bindings.lookup (normalize_keystr ⟨e.modifiers, e.key⟩) with
  | some cmd => ({ s with keystring := "", timer := none }, [⟨cmd, .special, none⟩])
  | none =>
    if !s.supports_chains then (s, [])
    else if e.text = "" then (s, [])
    else handleChain { s with timer := none } (s.keystring ++ e.text)

/-- Modelled from the spec: the AmbiguityTimer firing - dispatch the command
associated with the snapshot's remainder using the snapshot's count, then
reset to Idle (spec section 4.5). -/
def fire_timer (s : ParserState) : ParserState × List Dispatch :=
  match s.timer with
  | none => (s, [])
  | some t =>
    match s.bindings.lookup t.remainder with
    | some cmd => ({ s with keystring := "", timer := none }, [⟨cmd, .chain, t.count⟩])
    | none => ({ s with keystring := "", timer := none }, [])

/-- Feed a sequence of key events through `handle`, collecting every
dispatch in order. -/
def handleSeq (s : ParserState) (es : List KeyEvent) : ParserState × List Dispatch :=
  es.foldl
    (fun acc e =>
      let r := handle acc.1 e
      (r.1, acc.2 ++ r.2))
    (s, [])

/-- A plain printable key event carrying its own text, as produced by the
test helper `_fake_keyevent(key, text=ch)`. -/
def ev (t : String) : KeyEvent := ⟨[], t, t⟩

/-- A modifier combination event with no text payload, as produced by the
test helper `_fake_keyevent(key, modifiers)`. -/
def evMod (mods : List String) (k : String) : KeyEvent := ⟨mods, k, ""⟩

/-- The `test` section of the test fixture CONFIG:
`{'<Ctrl-a>': 'ctrla', 'a': 'a', 'ba': 'ba', 'ax': 'ax', 'ccc': 'ccc'}`. -/
def testSection : List (KeySpec × String) :=
  [(⟨["Ctrl"], "a"⟩, "ctrla"),
   (⟨[], "a"⟩, "a"),
   (⟨[], "ba"⟩, "ba"),
   (⟨[], "ax"⟩, "ax"),
   (⟨[], "ccc"⟩, "ccc")]

/-- The `test2` section of the test fixture CONFIG:
`{'foo': 'bar', '<Ctrl+X>': 'ctrlx'}`. -/
def test2Section : List (KeySpec × String) :=
  [(⟨[], "foo"⟩, "bar"),
   (⟨["Ctrl"], "X"⟩, "ctrlx")]

/-- The test fixture configuration source: sections `test` and `test2`, and
`input -> timeout` of 100 ms. -/
def testConfig : ConfigSource :=
  ⟨[("test", testSection), ("test2", test2Section)], some 100⟩

/-- A parser with the given capability flags after `read_config('test')`,
mirroring the test set-up. -/
def loadedParser (supports_count supports_chains : Bool) : ParserState :=
  (read_config testConfig (newParser supports_count supports_chains)
    (some "test")).toOption.getD (newParser supports_count supports_chains)

/-- The parser state right after pressing `a` on a freshly loaded
chain-supporting parser (the ambiguous situation of the tests). -/
def afterA : ParserState × List Dispatch :=
  handle (loadedParser false true) (ev "a")

/-- The parser state after pressing `a` and then `x` (resolving the
ambiguity in favour of the longer chain). -/
def afterAX : ParserState × List Dispatch :=
  handle afterA.1 (ev "x")

end KeyParser

namespace SettingCompletion

/-- Embedded from `settingcompletion.py`: the `valid_values` object of a
setting's type - iterable values plus a `descriptions` dict whose lookup
can fail (`KeyError`). -/
structure ValidValues where
  values : List String
  descriptions : List (String × String)
deriving DecidableEq, Repr

/-- Embedded from `settingcompletion.py`: the `typ` attribute of a config
option's data, carrying `valid_values` which may be `None`. -/
structure ValueType where
  valid_values : Option ValidValues
deriving DecidableEq, Repr

/-- Embedded from `settingcompletion.py`: the configdata entry
`configdata.data[section][option]` resolved for the requested option. -/
structure OptionEntry where
  typ : ValueType
deriving DecidableEq, Repr

/-- Embedded from `settingcompletion.py`: the error raised when a type has
no valid values to complete. -/
inductive NoCompletionsError where
  | mk : NoCompletionsError
deriving DecidableEq, Repr

/-- Embedded from `SettingValueCompletionModel.__init__` (after the
`configdata.data[section][option]` lookup has resolved to `entry`): raise
`NoCompletionsError` when `valid_values` is `None`, otherwise build the
category title and one item per valid value, with the description taken
from `vals.descriptions[val]` and `""` on `KeyError`. -/
def SettingValueCompletionModel.init (opt : String) (entry : OptionEntry) :
    Except NoCompletionsError (String × List (String × String)) :=
  match entry.typ.valid_values with
  | none => .error .mk
  | some vals =>
    .ok ("Setting values for " ++ opt,
      vals.values.map (fun val => (val, (vals.descriptions.lookup val).getD "")))

end SettingCompletion

namespace KeyParser

/-- The digit run and the suffix returned by `takeDigits` concatenate back
to the input: the suffix is untouched. -/
theorem takeDigits_append (l : List Char) :
    (takeDigits l).1 ++ (takeDigits l).2 = l := by
  induction l with
  | nil => rfl
  | cons c cs ih =>
    by_cases h : c.isDigit
    · simp [takeDigits, h, ih]
    · simp [takeDigits, h]

/-- Every character of the run returned by `takeDigits` is an ASCII
decimal digit. -/
theorem takeDigits_all_digits (l : List Char) :
    ∀ c ∈ (takeDigits l).1, c.isDigit := by
  induction l with
  | nil => intro c hc; simp [takeDigits] at hc
  | cons a as ih =>
    intro c hc
    by_cases h : a.isDigit
    · simp only [takeDigits, h, if_true, List.mem_cons] at hc
      rcases hc with rfl | hc
      · exact h
      · exact ih c hc
    · simp [takeDigits, h] at hc

/-- The run returned by `takeDigits` is the longest leading digit run: the
suffix never starts with a digit. -/
theorem takeDigits_rest_head (l : List Char) :
    ∀ c, (takeDigits l).2.head? = some c → c.isDigit = false := by
  induction l with
  | nil => intro c hc; simp [takeDigits] at hc
  | cons a as ih =>
    intro c hc
    by_cases h : a.isDigit
    · simp only [takeDigits, h, if_true] at hc
      exact ih c hc
    · simp only [takeDigits, h, if_false, List.head?_cons] at hc
      cases hc
      simp [h]

/-- Splitting the empty keystring yields no count and an empty remainder,
for either capability flag. -/
theorem split_count_empty (b : Bool) : split_count b "" = (none, "") := by
  cases b <;> rfl

/-- The chain path either dispatches nothing or leaves an empty buffered
keystring behind. -/
theorem handleChain_cases (s : ParserState) (ks : String) :
    (handleChain s ks).2 = [] ∨ (handleChain s ks).1.keystring = "" := by
  unfold handleChain
  split
  · split
    · split
      · left; rfl
      · left; rfl
    · right; rfl
  · split
    · left; rfl
    · left; rfl

/-- Processing one event either dispatches nothing or leaves an empty
buffered keystring behind. -/
theorem handle_cases (s : ParserState) (e : KeyEvent) :
    (handle s e).2 = [] ∨ (handle s e).1.keystring = "" := by
  unfold handle
  split
  · right; rfl
  · split
    · left; rfl
    · split
      · left; rfl
      · exact handleChain_cases _ _

/-- Whenever `handle` dispatches (special or chain), the resulting buffered
keystring is empty. -/
theorem handle_dispatch_reset (s : ParserState) (e : KeyEvent)
    (h : (handle s e).2 ≠ []) : (handle s e).1.keystring = "" :=
  (handle_cases s e).resolve_left h

/-- The parser obtained by loading section `test2` on top of the parser
that had loaded section `test`, as in `ReadConfigTests`. -/
def reloadedParser : ParserState :=
  (read_config testConfig (loadedParser true true)
    (some "test2")).toOption.getD (newParser true true)

/-- C1: with section `test` loaded (chains `a` and `ax`, timeout 100 ms)
and chain support on, pressing `a` alone dispatches nothing and arms a
single-shot AmbiguityTimer with interval 100 on the remainder `a` / count
`none` snapshot; a following `x` clears the pending timer and dispatches
`("ax", chain, none)` exactly once with the keystring reset to empty; if
the timer instead fires, it dispatches `("a", chain, none)` and resets. -/
theorem claim_C1_ambiguous_chain :
    afterA.2 = [] ∧
    afterA.1.timer = some ⟨100, true, "a", none⟩ ∧
    afterAX.2 = [⟨"ax", DispatchType.chain, none⟩] ∧
    afterAX.1.timer = none ∧
    afterAX.1.keystring = "" ∧
    (fire_timer afterA.1).2 = [⟨"a", DispatchType.chain, none⟩] ∧
    (fire_timer afterA.1).1.keystring = "" ∧
    (fire_timer afterA.1).1.timer = none := by
  decide

/-- C2: with chain support and section `test` loaded, pressing `b` then `a`
(a unique exact match, no longer chain extending `ba`) dispatches exactly
`("ba", chain, none)` and leaves the buffered keystring empty, whether or
not counts are supported. -/
theorem claim_C2_unique_exact_match :
    (handleSeq (loadedParser false true) [ev "b", ev "a"]).2 =
      [⟨"ba", DispatchType.chain, none⟩] ∧
    (handleSeq (loadedParser false true) [ev "b", ev "a"]).1.keystring = "" ∧
    (handleSeq (loadedParser true true) [ev "b", ev "a"]).2 =
      [⟨"ba", DispatchType.chain, none⟩] ∧
    (handleSeq (loadedParser true true) [ev "b", ev "a"]).1.keystring = "" := by
  decide

/-- C4: with section `test` loaded, a key event normalizing to the special
binding Ctrl+A dispatches `("ctrla", special, none)` exactly once, while
Ctrl+Alt+A matches no special binding, dispatches nothing and leaves the
parser state completely unchanged. -/
theorem claim_C4_special_keys :
    (handle (loadedParser false true) (evMod ["Ctrl"] "A")).2 =
      [⟨"ctrla", DispatchType.special, none⟩] ∧
    (handle (loadedParser false true) (evMod ["Ctrl"] "A")).1.keystring = "" ∧
    handle (loadedParser false true) (evMod ["Ctrl", "Alt"] "A") =
      (loadedParser false true, []) := by
  decide

/-- C6: key-string normalization maps Control→Ctrl, Windows→Meta, Mod1→Alt,
Mod4→Meta, upper-cases a single-character alphabetic key token when a
modifier is present, and preserves punctuation key tokens literally. -/
theorem claim_C6_normalization :
    normalizeMod "Control" = "Ctrl" ∧
    normalizeMod "Windows" = "Meta" ∧
    normalizeMod "Mod1" = "Alt" ∧
    normalizeMod "Mod4" = "Meta" ∧
    normalize_keystr ⟨["Control"], "x"⟩ = "Ctrl+X" ∧
    normalize_keystr ⟨["Windows"], "x"⟩ = "Meta+X" ∧
    normalize_keystr ⟨["Mod1"], "x"⟩ = "Alt+X" ∧
    normalize_keystr ⟨["Mod4"], "x"⟩ = "Meta+X" ∧
    normalize_keystr ⟨["Control"], "-"⟩ = "Ctrl+-" ∧
    normalize_keystr ⟨["Windows"], "+"⟩ = "Meta++" := by
  decide

/-- C7: with count and chain support and section `test` loaded, a leading
digit run becomes the dispatch's count: `4`,`2`,`b`,`a` dispatches
`("ba", chain, 42)` and `0`,`b`,`a` dispatches `("ba", chain, 0)`, zero
being an explicit count distinct from `none`. -/
theorem claim_C7_counts :
    (handleSeq (loadedParser true true) [ev "4", ev "2", ev "b", ev "a"]).2 =
      [⟨"ba", DispatchType.chain, some 42⟩] ∧
    (handleSeq (loadedParser true true) [ev "4", ev "2", ev "b", ev "a"]).1.keystring = "" ∧
    (handleSeq (loadedParser true true) [ev "0", ev "b", ev "a"]).2 =
      [⟨"ba", DispatchType.chain, some 0⟩] ∧
    (handleSeq (loadedParser true true) [ev "0", ev "b", ev "a"]).1.keystring = "" ∧
    some 0 ≠ (none : Option Nat) := by
  decide

/-- C8: `read_config` fully replaces, never merges, the binding tables -
after loading `test` then `test2`, the chain `ccc` and the special Ctrl+A
from the first load are gone while `foo` and Ctrl+X from the second load
are present. -/
theorem claim_C8_read_config_replaces :
    (loadedParser true true).bindings.lookup "ccc" = some "ccc" ∧
    (loadedParser true true).special_bindings.lookup "Ctrl+A" = some "ctrla" ∧
    (read_config testConfig (loadedParser true true) (some "test2")).toOption =
      some reloadedParser ∧
    reloadedParser.bindings.lookup "ccc" = none ∧
    reloadedParser.special_bindings.lookup "Ctrl+A" = none ∧
    reloadedParser.bindings.lookup "foo" = some "bar" ∧
    reloadedParser.special_bindings.lookup "Ctrl+X" = some "ctrlx" := by
  decide

/-- C3: after every dispatch the keystring and the derived count are reset
together (empty keystring, no count), and an abandoned invalid chain
(`4`,`2`,`c`,`c`,`x`) leaves no dispatch and an empty buffer, after which a
fresh chain `2`,`3`,`c`,`c`,`c` matches independently with its own fresh
count, dispatching `("ccc", chain, 23)`. -/
theorem claim_C3_reset_together :
    (∀ (s : ParserState) (e : KeyEvent), (handle s e).2 ≠ [] →
      (handle s e).1.keystring = "" ∧
      split_count (handle s e).1.supports_count (handle s e).1.keystring = (none, "")) ∧
    (handleSeq (loadedParser true true) [ev "4", ev "2", ev "c", ev "c", ev "x"]).2 = [] ∧
    (handleSeq (loadedParser true true)
      [ev "4", ev "2", ev "c", ev "c", ev "x"]).1.keystring = "" ∧
    (handleSeq (loadedParser true true)
      [ev "4", ev "2", ev "c", ev "c", ev "x",
       ev "2", ev "3", ev "c", ev "c", ev "c"]).2 =
      [⟨"ccc", DispatchType.chain, some 23⟩] := by
  refine ⟨?_, by decide, by decide, by decide⟩
  intro s e h
  have hk := handle_dispatch_reset s e h
  exact ⟨hk, by rw [hk]; exact split_count_empty _⟩

/-- Witness for C3 at a concrete dispatching event: the special binding
Ctrl+A dispatches, and afterwards keystring and derived count are reset. -/
theorem claim_C3_witness :
    (handle (loadedParser false true) (evMod ["Ctrl"] "A")).2 ≠ [] ∧
    ((handle (loadedParser false true) (evMod ["Ctrl"] "A")).1.keystring = "" ∧
     split_count (handle (loadedParser false true) (evMod ["Ctrl"] "A")).1.supports_count
       (handle (loadedParser false true) (evMod ["Ctrl"] "A")).1.keystring = (none, "")) :=
  ⟨by decide,
   claim_C3_reset_together.1 (loadedParser false true) (evMod ["Ctrl"] "A") (by decide)⟩

/-- C5: `split_count` with count support splits the longest leading ASCII
digit run (all digits, maximal, suffix untouched) as the count; a string
starting with a non-digit (including a leading minus) is returned unchanged
with no count; without count support nothing is ever split. -/
theorem claim_C5_split_count :
    split_count true "10" = (some 10, "") ∧
    split_count true "10foo" = (some 10, "foo") ∧
    split_count true "-1foo" = (none, "-1foo") ∧
    split_count true "10e4foo" = (some 10, "e4foo") ∧
    split_count true "foo" = (none, "foo") ∧
    split_count false "10foo" = (none, "10foo") ∧
    (∀ ks : String, split_count false ks = (none, ks)) ∧
    (∀ ks : String,
      (takeDigits ks.toList).1 ++ (takeDigits ks.toList).2 = ks.toList ∧
      (∀ c ∈ (takeDigits ks.toList).1, c.isDigit) ∧
      (∀ c, (takeDigits ks.toList).2.head? = some c → c.isDigit = false) ∧
      ((takeDigits ks.toList).1 = [] → split_count true ks = (none, ks)) ∧
      ((takeDigits ks.toList).1 ≠ [] →
        split_count true ks =
          (some (digitsToNat (takeDigits ks.toList).1),
           String.mk (takeDigits ks.toList).2))) := by
  refine ⟨by decide, by decide, by decide, by decide, by decide, by decide, ?_, ?_⟩
  · intro ks; rfl
  · intro ks
    refine ⟨takeDigits_append _, takeDigits_all_digits _, takeDigits_rest_head _, ?_, ?_⟩
    · intro h
      rcases hq : takeDigits ks.toList with ⟨ds0, rest0⟩
      rw [hq] at h
      simp only at h
      subst h
      simp only [String.toList] at hq
      simp [split_count, hq]
    · intro h
      rcases hq : takeDigits ks.toList with ⟨ds0, rest0⟩
      rw [hq] at h
      rcases ds0 with _ | ⟨d, ds⟩
      · exact absurd rfl h
      · simp only [String.toList] at hq
        simp [split_count, hq]

/-- Witness for C5 at concrete inputs: without count support `"7x"` is
returned unchanged, and with count support a non-digit-leading `"x7"` is
returned unchanged. -/
theorem claim_C5_witness :
    split_count false "7x" = (none, "7x") ∧
    split_count true "x7" = (none, "x7") :=
  ⟨claim_C5_split_count.2.2.2.2.2.2.1 "7x",
   (claim_C5_split_count.2.2.2.2.2.2.2 "x7").2.2.2.1 (by decide)⟩

/-- C9: `read_config` with no section argument, when no section was
previously loaded, fails synchronously with the no-section configuration
error (and being a pure failure, leaves the parser's tables to the caller
exactly as they were). -/
theorem claim_C9_read_config_requires_section (cfg : ConfigSource) (s : ParserState)
    (h : s.sect = none) : read_config cfg s none = .error .noSection := by
  unfold read_config
  simp [Option.orElse, h]

/-- Witness for C9: a freshly constructed parser has no loaded section, so
`read_config` without a section argument fails. -/
theorem claim_C9_witness :
    read_config testConfig (newParser true true) none = .error .noSection :=
  claim_C9_read_config_requires_section testConfig (newParser true true) rfl

end KeyParser

namespace SettingCompletion

/-- C10: constructing a `SettingValueCompletionModel` for an option whose
type has `valid_values = None` raises `NoCompletionsError`; otherwise
construction succeeds with exactly one completion item per valid value,
the description coming from `vals.descriptions` when present and `""` when
that lookup fails. -/
theorem claim_C10_setting_value_completion :
    (∀ (opt : String) (entry : OptionEntry), entry.typ.valid_values = none →
      SettingValueCompletionModel.init opt entry = .error .mk) ∧
    (∀ (opt : String) (vals : ValidValues),
      SettingValueCompletionModel.init opt ⟨⟨some vals⟩⟩ =
        .ok ("Setting values for " ++ opt,
          vals.values.map (fun val => (val, (vals.descriptions.lookup val).getD ""))) ∧
      (vals.values.map (fun val => (val, (vals.descriptions.lookup val).getD ""))).map
          Prod.fst = vals.values ∧
      (∀ p ∈ vals.values.map (fun val => (val, (vals.descriptions.lookup val).getD "")),
        p.2 = (vals.descriptions.lookup p.1).getD "")) ∧
    SettingValueCompletionModel.init "x" ⟨⟨some ⟨["u", "v"], [("u", "du")]⟩⟩⟩ =
      .ok ("Setting values for x", [("u", "du"), ("v", "")]) := by
  refine ⟨?_, ?_, rfl⟩
  · intro opt entry h
    unfold SettingValueCompletionModel.init
    rw [h]
  · intro opt vals
    refine ⟨rfl, ?_, ?_⟩
    · simp only [List.map_map]
      have hcomp : (Prod.fst ∘ fun val : String =>
          (val, ((vals.descriptions.lookup val).getD ""))) = fun val => val := by
        funext val
        rfl
      rw [hcomp]
      simp
    · intro p hp
      simp only [List.mem_map] at hp
      obtain ⟨val, hv, rfl⟩ := hp
      rfl

/-- Witness for C10: an option type with `valid_values = None` raises
`NoCompletionsError`. -/
theorem claim_C10_witness :
    SettingValueCompletionModel.init "colors" ⟨⟨none⟩⟩ = .error .mk :=
  claim_C10_setting_value_completion.1 "colors" ⟨⟨none⟩⟩ rfl

end SettingCompletion
